import Mathlib

set_option linter.unusedVariables false

/-!
Verification of the daikawa climate-control agent (src/main.rs).

Shallow embedding conventions:
* `NaiveTime` values (wall-clock times of day, second resolution) are
  modelled as `Nat` seconds since midnight, with the validity invariant
  `t < 86400` stated as a hypothesis where a claim needs it.
* `chrono::Duration` second counts (`num_seconds`) are modelled as `Int`.
* `f64` temperatures are modelled as `ℚ`; every arithmetic step of the
  source is mirrored operation for operation, so the algebraic shape of
  each computation is preserved exactly.
* A Rust function that can return normally, return an `Err`, or panic is
  modelled with `RustResult`: `.ok`, `.err`, `.panic`.  Calls to external
  collaborators (HTTP, serde parsing of response bytes) are abstracted as
  explicit parameters carrying the upstream response already split into
  the pieces the source inspects (status code, body text, parse result).
-/

namespace Daikawa

/-- The error enum of src/main.rs (`Error`): HTTP transport error (carrying
the curl description), API error with a status/error code and a message, or
a generic error with a message. -/
inductive Error where
  | HTTPError (desc : String)
  | APIError (code : Nat) (msg : String)
  | GenericError (msg : String)
  deriving DecidableEq

/-- Error code for stale sensor data (`ERROR_STALE_DATA`, must be ≥ 1000 to
distinguish from HTTP status codes). -/
def ERROR_STALE_DATA : Nat := 1000

/-- Outcome of running a Rust function: normal return, `Err` return, or a
panic (index out of bounds, `unwrap` on `Err`/`None`, explicit `panic`). -/
inductive RustResult (α : Type) where
  | ok (a : α)
  | err (e : Error)
  | panic (msg : String)
  deriving DecidableEq

/- ----------------------------------------------------------------- -/
/- Time window model (TimeRange, contains, to_next, next_transition,
   parse_time_range) — src/main.rs lines 502-549.                     -/
/- ----------------------------------------------------------------- -/

/-- The `TimeRange` enum: `Contiguous(begin, end)` or `Split(end, begin)`
(the Split variant stores the pair in swapped order, exactly as the source
constructs it in `parse_time_range`). -/
inductive TimeRange where
  | Contiguous (b e : Nat)
  | Split (e b : Nat)
  deriving DecidableEq

/-- `TimeRange::contains` (src/main.rs:508-517): Contiguous(begin,end) holds
`begin <= t && t <= end`; Split(end,begin) holds `t <= end || begin <= t`. -/
def TimeRange.contains : TimeRange → Nat → Bool
  | .Contiguous b e, t => decide (b ≤ t ∧ t ≤ e)
  | .Split e b, t => decide (t ≤ e ∨ b ≤ t)

/-- `to_next` (src/main.rs:520-528): seconds to the next boundary, computed
with chrono `Duration` arithmetic (`num_seconds` of time differences is the
signed difference in seconds). -/
def to_next (t b e : Nat) : Int :=
  if t < b then (b : Int) - (t : Int)
  else if t < e then (e : Int) - (t : Int)
  else 86400 - ((t : Int) - (b : Int))

/-- `next_transition` (src/main.rs:530-539): delegates to `to_next`, passing
the stored pair of the variant in stored order (so for Split the first
argument is the stored `end`, the second the stored `begin`). -/
def next_transition (t : Nat) (range : TimeRange) : Int :=
  match range with
  | .Contiguous b e => to_next t b e
  | .Split e b => to_next t e b

/-- `parse_time_range` (src/main.rs:541-549), after the `%R` string parsing
(which is total on valid time strings): `Contiguous(begin, end)` when
`begin < end`, otherwise `Split(end, begin)`. -/
def parse_time_range (begint endt : Nat) : TimeRange :=
  if begint < endt then .Contiguous begint endt else .Split endt begint

/-- The ordered boundary pair of a variant, as described by the spec:
`(begin, end)` for Contiguous, and for Split the stored (swapped) pair
`(end, begin)`. -/
def ordered_boundaries : TimeRange → Nat × Nat
  | .Contiguous b e => (b, e)
  | .Split e b => (e, b)

/-- Three-branch boundary-delay computation, written from the spec's words
(§4.1): before the first boundary → seconds until the first boundary; else
before the second boundary → seconds until the second boundary; else
`86400 − seconds elapsed since the first boundary`. -/
def spec_three_branch_transition (t first second : Nat) : Int :=
  if t < first then (first : Int) - (t : Int)
  else if t < second then (second : Int) - (t : Int)
  else 86400 - ((t : Int) - (first : Int))

/- ----------------------------------------------------------------- -/
/- Awair sensor client model — src/main.rs lines 94-246.              -/
/- ----------------------------------------------------------------- -/

namespace awair

/-- One sensor component of a record (`SensorData`): component name and
value. -/
structure SensorData where
  comp : String
  value : ℚ
  deriving DecidableEq

/-- One observation record (`Record`): an RFC3339 timestamp string and the
sensor components. -/
structure Record where
  timestamp : String
  sensors : List SensorData
  deriving DecidableEq

/-- The payload of the air-data endpoint (`Data`): a list of records. -/
structure Data where
  data : List Record
  deriving DecidableEq

/-- `str::to_lowercase`, modelled character-wise (ASCII case folding,
which covers the component names the API uses). -/
def to_lowercase (s : String) : String := String.mk (s.data.map Char.toLower)

/-- `awair::get_temp` (src/main.rs:137-144): scan the sensor list for the
component whose lowercased name is "temp"; panic if none is found. -/
def get_temp : List SensorData → RustResult ℚ
  | [] => .panic "temp not found"
  | s :: rest =>
      if to_lowercase s.comp = "temp" then .ok s.value else get_temp rest

/-- The summation loop of `awair::average_temp`: add the temp component of
each record in order, propagating the panic of `get_temp`. -/
def sum_temps : List Record → RustResult ℚ
  | [] => .ok 0
  | r :: rs =>
      match get_temp r.sensors with
      | .ok v =>
          match sum_temps rs with
          | .ok s => .ok (v + s)
          | .err e => .err e
          | .panic m => .panic m
      | .err e => .err e
      | .panic m => .panic m

/-- `awair::average_temp` (src/main.rs:146-152): sum of temp components
divided by the number of records. -/
def average_temp (d : Data) : RustResult ℚ :=
  match sum_temps d.data with
  | .ok s => .ok (s / (d.data.length : ℚ))
  | .err e => .err e
  | .panic m => .panic m

/-- `awair::get_latest_timestamp` (src/main.rs:154-157): indexes
`data.data[0]` (a panic when the data list is empty) and `unwrap`s the
RFC3339 parse of its timestamp (a panic when malformed). The RFC3339
parser of the chrono library is abstracted as a parameter `p` giving the
parsed local timestamp in seconds, `none` on malformed input. -/
def get_latest_timestamp (p : String → Option Int) (d : Data) : RustResult Int :=
  match d.data with
  | [] => .panic "index out of bounds"
  | r :: _ =>
      match p r.timestamp with
      | none => .panic "unwrap on Err"
      | some ts => .ok ts

/-- `num_minutes` of a chrono `Duration` holding `secs` seconds: division
by 60 truncated toward zero. -/
def num_minutes (secs : Int) : Int := Int.tdiv secs 60

/-- `Awair::get_temp` (src/main.rs:214-237). The HTTP exchange and the
serde parse of the body are abstracted into parameters: `res` is the HTTP
status, `body` the response body as text, and `parsed` the serde parse of
the body (`none` when it is not a valid `Data` document, which the source
turns into a `GenericError` carrying the serde message, abstracted here as
the body text). `now` is the current local time in seconds. -/
def Awair.get_temp (p : String → Option Int) (now : Int) (res : Nat)
    (body : String) (parsed : Option Data) : RustResult ℚ :=
  if res ≠ 200 then .err (.APIError res body)
  else
    match parsed with
    | none => .err (.GenericError body)
    | some data =>
        match get_latest_timestamp p data with
        | .panic m => .panic m
        | .err e => .err e
        | .ok ts =>
            if num_minutes (now - ts) > 15 then
              .err (.APIError ERROR_STALE_DATA "Stale data")
            else average_temp data

end awair

/- ----------------------------------------------------------------- -/
/- Daikin Skyport client model — src/main.rs lines 248-482.           -/
/- ----------------------------------------------------------------- -/

namespace daikin

/-- The cached device snapshot (`DeviceData`): cool/heat setpoints, indoor
temperature, geofencing-away flag, outdoor temperature. -/
structure DeviceData where
  csp_home : ℚ
  hsp_home : ℚ
  temp_indoor : ℚ
  geofencing_away : Bool
  temp_outdoor : ℚ
  deriving DecidableEq

/-- The login / token-refresh response (`LoginResult`). -/
structure LoginResult where
  access_token : String
  access_token_expires_in : Nat
  refresh_token : Option String
  token_type : String
  deriving DecidableEq

/-- The thermostat session (`SkyPort`): credentials, tokens, device id and
the cached device snapshot. -/
structure SkyPort where
  email : String
  access_token : String
  refresh_token : String
  device_id : String
  device_data : DeviceData
  deriving DecidableEq

/-- Does the error match `Error::APIError(401, _)` (the pattern the source
tests before retrying)? -/
def is401 : Error → Bool
  | .APIError 401 _ => true
  | _ => false

/-- `SkyPort::refresh_token` (src/main.rs:363-381), named with an `_op`
suffix because the session struct already has a `refresh_token` field:
non-200 → `APIError` with the body text; 200 with a body that does not
parse as `LoginResult` → panic (the source `unwrap`s the serde result);
otherwise store the new access token. `rs` is the HTTP status, `body` the
response body text, `parsed` the serde parse of the body. -/
def SkyPort.refresh_token_op (rs : Nat) (body : String)
    (parsed : Option LoginResult) (s : SkyPort) : RustResult SkyPort :=
  if rs ≠ 200 then .err (.APIError rs body)
  else
    match parsed with
    | none => .panic "unwrap on Err"
    | some r => .ok { s with access_token := r.access_token }

/-- `SkyPort::do_sync` (src/main.rs:383-403): non-200 → `APIError` with the
body text; unparseable 200 body → `GenericError`; otherwise replace the
cached device snapshot. No panic path. -/
def SkyPort.do_sync (rs : Nat) (body : String) (parsed : Option DeviceData)
    (s : SkyPort) : Except Error SkyPort :=
  if rs ≠ 200 then .error (.APIError rs body)
  else
    match parsed with
    | none => .error (.GenericError body)
    | some d => .ok { s with device_data := d }

/-- `SkyPort::sync` (src/main.rs:405-415): run `do_sync`; on
`APIError(401,_)` refresh the token (propagating its failure) and run
`do_sync` once more; any other error propagates unchanged. Each of the (at
most two) `do_sync` calls and the refresh call sees its own upstream
response, passed as a separate parameter triple — the model has no third
attempt by construction. -/
def SkyPort.sync (r1 : Nat) (b1 : String) (p1 : Option DeviceData)
    (rr : Nat) (br : String) (pr : Option LoginResult)
    (r2 : Nat) (b2 : String) (p2 : Option DeviceData)
    (s : SkyPort) : RustResult SkyPort :=
  match s.do_sync r1 b1 p1 with
  | .ok s2 => .ok s2
  | .error e =>
      if is401 e then
        match s.refresh_token_op rr br pr with
        | .panic m => .panic m
        | .err re => .err re
        | .ok s3 =>
            match s3.do_sync r2 b2 p2 with
            | .ok s4 => .ok s4
            | .error e2 => .err e2
      else .err e

/-- `SkyPort::do_set_setpoints` (src/main.rs:437-451): PUT the new
setpoints; non-200 → `APIError` with the body text, otherwise `Ok(())`.
The setpoints and hold duration only shape the request body, which the
upstream response parameters abstract. -/
def SkyPort.do_set_setpoints (heat cool : ℚ) (duration : Nat)
    (rs : Nat) (body : String) (s : SkyPort) : Except Error Unit :=
  if rs ≠ 200 then .error (.APIError rs body)
  else .ok ()

/-- `SkyPort::set_setpoints` (src/main.rs:453-463): same retry-once-on-401
shape as `sync`, around `do_set_setpoints`. -/
def SkyPort.set_setpoints (heat cool : ℚ) (duration : Nat)
    (r1 : Nat) (b1 : String)
    (rr : Nat) (br : String) (pr : Option LoginResult)
    (r2 : Nat) (b2 : String)
    (s : SkyPort) : RustResult Unit :=
  match s.do_set_setpoints heat cool duration r1 b1 with
  | .ok _ => .ok ()
  | .error e =>
      if is401 e then
        match s.refresh_token_op rr br pr with
        | .panic m => .panic m
        | .err re => .err re
        | .ok s3 =>
            match s3.do_set_setpoints heat cool duration r2 b2 with
            | .ok _ => .ok ()
            | .error e2 => .err e2
      else .err e

/-- `SkyPort::get_temp_indoor` (src/main.rs:417-419). -/
def SkyPort.get_temp_indoor (s : SkyPort) : ℚ := s.device_data.temp_indoor

/-- `SkyPort::get_heat_setpoint` (src/main.rs:421-423). -/
def SkyPort.get_heat_setpoint (s : SkyPort) : ℚ := s.device_data.hsp_home

/-- `SkyPort::get_cool_setpoint` (src/main.rs:425-427). -/
def SkyPort.get_cool_setpoint (s : SkyPort) : ℚ := s.device_data.csp_home

/-- `SkyPort::get_geofencing_away` (src/main.rs:429-431). -/
def SkyPort.get_geofencing_away (s : SkyPort) : Bool :=
  s.device_data.geofencing_away

/-- `SkyPort::get_temp_outdoor` (src/main.rs:433-435). -/
def SkyPort.get_temp_outdoor (s : SkyPort) : ℚ := s.device_data.temp_outdoor

end daikin

/- ----------------------------------------------------------------- -/
/- Configuration, setpoint computation, control cycle, startup —
   src/main.rs lines 484-500, 846-953, 960-1021.                      -/
/- ----------------------------------------------------------------- -/

/-- The process configuration (`Config`), fields in source order; `dry_run`
and `oneshot` are serde-skipped and set from command-line flags. -/
structure Config where
  awair_token : String
  target_temp_heat : ℚ
  target_temp_cool : ℚ
  control_start : String
  control_end : String
  daikin_email : String
  daikin_password : String
  dry_run : Bool
  oneshot : Bool
  deriving DecidableEq

/-- `read_config` (src/main.rs:846-868). File open, read and toml parse are
abstracted into the parameter: `.error msg` when any of those stages fails,
`.ok config` when the file parses. The validity check on the targets is the
source's own. -/
def read_config (parsed : Except String Config) : Except String Config :=
  match parsed with
  | .error e => .error e
  | .ok config =>
      if config.target_temp_heat > config.target_temp_cool then
        .error "target_temp_heat must be lower than or equal to target_temp_cool"
      else .ok config

/-- `calc_new_setpoints` (src/main.rs:876-881): `diff = atemp - dtemp`,
returns `(target_heat - diff, target_cool - diff)`. -/
def calc_new_setpoints (atemp dtemp target_heat target_cool : ℚ) : ℚ × ℚ :=
  let diff := atemp - dtemp
  let new_hsp := target_heat - diff
  let new_csp := target_cool - diff
  (new_hsp, new_csp)

/-- One telemetry record (`TempLog`, src/main.rs:883-896). -/
structure TempLog where
  target_temp_heat : ℚ
  target_temp_cool : ℚ
  awair_temp : ℚ
  daikin_indoor_temp : ℚ
  daikin_outdoor_temp : ℚ
  current_heat_setpoint : ℚ
  current_cool_setpoint : ℚ
  new_heat_setpoint : ℚ
  new_cool_setpoint : ℚ
  execute_control : Bool
  deriving DecidableEq

/-- Observable outcome of one `do_control` invocation: the returned sleep
interval in minutes, the telemetry records emitted (via `print_log`), and
the `set_setpoints` invocations performed (heat, cool, hold duration). -/
structure CycleOut where
  interval : Nat
  logs : List TempLog
  setpoint_calls : List (ℚ × ℚ × Nat)
  deriving DecidableEq

/-- `do_control` (src/main.rs:908-953). The three collaborator calls the
cycle makes are abstracted into their outcomes: `syncRes` for
`skyport.sync()` (carrying the freshly synced session on success),
`tempRes` for `awair.get_temp()`, and `setRes` for
`skyport.set_setpoints(...)`. A panic in a collaborator propagates; an
early error returns the retry interval with no telemetry record. -/
def do_control (syncRes : RustResult daikin.SkyPort) (tempRes : RustResult ℚ)
    (config : Config) (setRes : RustResult Unit) : RustResult CycleOut :=
  let dflt := 15
  let retry := 5
  match syncRes with
  | .panic m => .panic m
  | .err _ => .ok ⟨retry, [], []⟩
  | .ok skyport =>
      match tempRes with
      | .panic m => .panic m
      | .err _ => .ok ⟨retry, [], []⟩
      | .ok atemp =>
          let dtemp := skyport.get_temp_indoor
          let nsp := calc_new_setpoints atemp dtemp
            config.target_temp_heat config.target_temp_cool
          let away := skyport.get_geofencing_away
          let execute := !(away || config.dry_run)
          let log : TempLog := {
            target_temp_heat := config.target_temp_heat
            target_temp_cool := config.target_temp_cool
            awair_temp := atemp
            daikin_indoor_temp := dtemp
            daikin_outdoor_temp := skyport.get_temp_outdoor
            current_heat_setpoint := skyport.get_heat_setpoint
            current_cool_setpoint := skyport.get_cool_setpoint
            new_heat_setpoint := nsp.1
            new_cool_setpoint := nsp.2
            execute_control := execute }
          if execute = false then .ok ⟨dflt, [log], []⟩
          else
            match setRes with
            | .panic m => .panic m
            | .err _ => .ok ⟨retry, [log], [(nsp.1, nsp.2, dflt)]⟩
            | .ok _ => .ok ⟨dflt, [log], [(nsp.1, nsp.2, dflt)]⟩

/-- A network interaction performed during startup: creating the Awair
client (device discovery) or the SkyPort session (login, device list,
initial sync). -/
inductive NetEvent where
  | awairNew
  | skyportNew
  deriving DecidableEq

/-- The startup sequence of `main` (src/main.rs:986-1021) up to entering
the control loop: read the config (exiting with status 1 on failure,
before any network activity); return immediately under `--config-test`;
otherwise create the Awair client and then the SkyPort session, each a
network interaction, exiting with status 1 if either fails. Returns the
network events performed and `some code` if the process exits before the
loop. -/
def main_startup (parsed : Except String Config) (configTest : Bool)
    (awairRes skyRes : Except Error Unit) : List NetEvent × Option Nat :=
  match read_config parsed with
  | .error _ => ([], some 1)
  | .ok _ =>
      if configTest then ([], none)
      else
        match awairRes with
        | .error _ => ([NetEvent.awairNew], some 1)
        | .ok _ =>
            match skyRes with
            | .error _ => ([NetEvent.awairNew, NetEvent.skyportNew], some 1)
            | .ok _ => ([NetEvent.awairNew, NetEvent.skyportNew], none)

/- ----------------------------------------------------------------- -/
/- Concrete values used by witnesses.                                 -/
/- ----------------------------------------------------------------- -/

/-- RFC3339 parse oracle under which every timestamp string is malformed. -/
def no_parse : String → Option Int := fun _ => none

/-- RFC3339 parse oracle for the witness payload: the one well-formed
timestamp parses to 1000 s, everything else is malformed. -/
def pW : String → Option Int :=
  fun s => if s = "2022-01-02T06:30:00.000Z" then some 1000 else none

/-- Witness observation record: a well-formed timestamp and a temp
component of 20. -/
def rW : awair.Record := ⟨"2022-01-02T06:30:00.000Z", [⟨"temp", 20⟩]⟩

/-- Witness payload holding the single record `rW`. -/
def dW : awair.Data := ⟨[rW]⟩

/-- A concrete session for evaluating the token-refresh path. -/
def sky0 : daikin.SkyPort :=
  ⟨"user@example.com", "acc", "ref", "dev", ⟨0, 0, 0, false, 0⟩⟩

/-- A concrete session whose device snapshot reports geofencing-away. -/
def skyAway : daikin.SkyPort :=
  ⟨"user@example.com", "tok", "ref", "dev", ⟨26, 21, 22, true, 5⟩⟩

/-- A concrete session used by the auth-retry witness. -/
def skyW : daikin.SkyPort :=
  ⟨"u@example.com", "old-token", "refresh", "dev-1", ⟨25, 20, 22, false, 10⟩⟩

/-- A concrete token-refresh response carrying a new access token. -/
def loginW : daikin.LoginResult := ⟨"new-token", 3600, some "refresh", "Bearer"⟩

/-- A concrete device snapshot returned by the retried sync. -/
def ddW : daikin.DeviceData := ⟨26, 21, 23, false, 11⟩

/-- A well-formed configuration (heat target below cool target). -/
def cfgGood : Config :=
  ⟨"tok", 23, 26, "21:00", "07:00", "d@example.com", "pw", false, false⟩

/-- A configuration whose heat target exceeds its cool target. -/
def cfgBad : Config :=
  ⟨"tok", 26, 23, "21:00", "07:00", "d@example.com", "pw", false, false⟩

/- ----------------------------------------------------------------- -/
/- Helper lemmas.                                                     -/
/- ----------------------------------------------------------------- -/

/-- When every record in the list has a temp component, the summation loop
returns normally. -/
theorem sum_temps_ok (l : List awair.Record)
    (h : ∀ r ∈ l, ∃ v, awair.get_temp r.sensors = RustResult.ok v) :
    ∃ s, awair.sum_temps l = RustResult.ok s := by
  induction l with
  | nil => exact ⟨0, rfl⟩
  | cons r rs ih =>
      obtain ⟨v, hv⟩ := h r (by simp)
      obtain ⟨s, hs⟩ := ih (fun x hx => h x (by simp [hx]))
      exact ⟨v + s, by simp [awair.sum_temps, hv, hs]⟩

/- ----------------------------------------------------------------- -/
/- Claims.                                                            -/
/- ----------------------------------------------------------------- -/

/-- Claim C1: for valid times, `begin < end` yields the Contiguous variant
with `contains t ↔ begin ≤ t ≤ end`, and `begin ≥ end` (including equality)
yields the Split variant with `contains t ↔ t ≤ end ∨ t ≥ begin`;
construction (`parse_time_range`) is a total function of the two times. -/
theorem C1_window_construction_contains (b e t : Nat) :
    (b < e → parse_time_range b e = TimeRange.Contiguous b e ∧
      ((parse_time_range b e).contains t = true ↔ b ≤ t ∧ t ≤ e)) ∧
    (e ≤ b → parse_time_range b e = TimeRange.Split e b ∧
      ((parse_time_range b e).contains t = true ↔ t ≤ e ∨ b ≤ t)) := by
  constructor
  · intro h
    simp [parse_time_range, if_pos h, TimeRange.contains]
  · intro h
    have h' : ¬ b < e := by omega
    simp [parse_time_range, if_neg h', TimeRange.contains]

/-- Witness for C1 at the concrete windows (100,200) and (200,100), time 150. -/
theorem C1_witness :
    (parse_time_range 100 200 = TimeRange.Contiguous 100 200 ∧
      ((parse_time_range 100 200).contains 150 = true ↔ 100 ≤ 150 ∧ 150 ≤ 200)) ∧
    (parse_time_range 200 100 = TimeRange.Split 100 200 ∧
      ((parse_time_range 200 100).contains 150 = true ↔ 150 ≤ 100 ∨ 200 ≤ 150)) :=
  ⟨(C1_window_construction_contains 100 200 150).1 (by decide),
   (C1_window_construction_contains 200 100 150).2 (by decide)⟩

/-- Claim C2: for every window and time, `next_transition` equals the
spec's three-branch computation over the ordered boundary pair of the
variant ((begin,end) for Contiguous, (end,begin) for Split). -/
theorem C2_next_transition_matches_spec (range : TimeRange) (t : Nat) :
    next_transition t range =
      spec_three_branch_transition t (ordered_boundaries range).1
        (ordered_boundaries range).2 := by
  cases range <;> rfl

/-- Counterexample to claim C3 as stated: for the window (08:00,13:00) and
t = 11:00 (39600 s), `next_transition` is 7200 s, landing on 46800 s
(13:00); but `contains` at 12:00 (43200 s), strictly between t and the
landing point, is `true`, the same value as `contains` at the landing
point — `contains` does not flip there, because the window is inclusive at
its end boundary. -/
theorem C3_counterexample :
    next_transition 39600 (parse_time_range 28800 46800) = 7200 ∧
    39600 < 43200 ∧ 43200 < 46800 ∧
    (parse_time_range 28800 46800).contains 43200 = true ∧
    (parse_time_range 28800 46800).contains 46800 = true := by
  decide

/-- Claim C3 (amended): for every window constructed from valid times and
every valid time t, `t + next_transition t` lands exactly on one of the two
configured boundary times (mod 86400) — but `contains` need not flip in
value there, since `contains` is inclusive at both boundaries (it flips at
the entry boundary and just after the exit boundary). -/
theorem C3_lands_on_boundary (b e t : Nat)
    (hb : b < 86400) (he : e < 86400) (ht : t < 86400) :
    ((t : Int) + next_transition t (parse_time_range b e)) % 86400 = (b : Int) ∨
    ((t : Int) + next_transition t (parse_time_range b e)) % 86400 = (e : Int) := by
  by_cases hbe : b < e
  · simp only [parse_time_range, if_pos hbe, next_transition, to_next]
    split
    · left; omega
    · split
      · right; omega
      · left; omega
  · simp only [parse_time_range, if_neg hbe, next_transition, to_next]
    split
    · right; omega
    · split
      · left; omega
      · right; omega

/-- Witness for the amended C3 at window (08:00,13:00), t = 11:00. -/
theorem C3_witness :
    ((39600 : Int) + next_transition 39600 (parse_time_range 28800 46800)) % 86400
        = (28800 : Int) ∨
    ((39600 : Int) + next_transition 39600 (parse_time_range 28800 46800)) % 86400
        = (46800 : Int) :=
  C3_lands_on_boundary 28800 46800 39600 (by decide) (by decide) (by decide)

/-- Claim C4: for every window (either variant, any stored boundaries,
covering the degenerate begin = end construction) and every valid time of
day t, `next_transition` is strictly positive. -/
theorem C4_next_transition_pos (range : TimeRange) (t : Nat) (ht : t < 86400) :
    0 < next_transition t range := by
  cases range <;> unfold next_transition to_next <;> split
  · omega
  · split <;> omega
  · omega
  · split <;> omega

/-- Witness for C4 at the degenerate window (00:00,00:00) (a Split window)
and t = 5 s. -/
theorem C4_witness : 0 < next_transition 5 (parse_time_range 0 0) :=
  C4_next_transition_pos (parse_time_range 0 0) 5 (by decide)

/-- Claim C5: `calc_new_setpoints` returns exactly
`(target_heat − (atemp − dtemp), target_cool − (atemp − dtemp))`, for all
inputs, with no error path (it is a total function). -/
theorem C5_calc_new_setpoints (atemp dtemp target_heat target_cool : ℚ) :
    calc_new_setpoints atemp dtemp target_heat target_cool =
      (target_heat - (atemp - dtemp), target_cool - (atemp - dtemp)) := rfl

/-- Claim C6 (refuted by the code): a 200 sensor response whose data array
is empty, or whose most recent timestamp is malformed, makes
`Awair::get_temp` panic (index out of bounds / `unwrap` on `Err`) instead
of returning an `Err`; a 200 token-refresh response that is not valid JSON
makes `SkyPort::refresh_token` panic (`unwrap` on a serde `Err`). None of
these are `Err` returns, so the cycle does not recover them locally. -/
theorem C6_cycle_errors_panic :
    awair.Awair.get_temp no_parse 0 200 "" (some ⟨[]⟩) =
        RustResult.panic "index out of bounds" ∧
    (∀ e, awair.Awair.get_temp no_parse 0 200 "" (some ⟨[]⟩) ≠ RustResult.err e) ∧
    awair.Awair.get_temp no_parse 0 200 ""
        (some ⟨[⟨"not-a-timestamp", [⟨"temp", 20⟩]⟩]⟩) =
        RustResult.panic "unwrap on Err" ∧
    daikin.SkyPort.refresh_token_op 200 "<html>error</html>" none sky0 =
        RustResult.panic "unwrap on Err" ∧
    (∀ e, daikin.SkyPort.refresh_token_op 200 "<html>error</html>" none sky0 ≠
        RustResult.err e) := by
  refine ⟨rfl, ?_, rfl, rfl, ?_⟩ <;> intro e h <;> exact RustResult.noConfusion h

/-- Claim C7: both `SkyPort::sync` and `SkyPort::set_setpoints` pass a
first-attempt success straight through; propagate a non-401 failure
untouched; on a 401 failure refresh the token, propagating a refresh
failure; and after a successful refresh return exactly the second
attempt's result (success or error), with no third attempt. -/
theorem C7_auth_retry_once (s : daikin.SkyPort)
    (r1 rr r2 : Nat) (b1 br b2 : String)
    (p1 p2 : Option daikin.DeviceData) (pr : Option daikin.LoginResult)
    (heat cool : ℚ) (duration : Nat) :
    (∀ s2, s.do_sync r1 b1 p1 = .ok s2 →
      s.sync r1 b1 p1 rr br pr r2 b2 p2 = RustResult.ok s2) ∧
    (∀ e, s.do_sync r1 b1 p1 = .error e → daikin.is401 e = false →
      s.sync r1 b1 p1 rr br pr r2 b2 p2 = RustResult.err e) ∧
    (∀ e re, s.do_sync r1 b1 p1 = .error e → daikin.is401 e = true →
      s.refresh_token_op rr br pr = RustResult.err re →
      s.sync r1 b1 p1 rr br pr r2 b2 p2 = RustResult.err re) ∧
    (∀ e s3, s.do_sync r1 b1 p1 = .error e → daikin.is401 e = true →
      s.refresh_token_op rr br pr = RustResult.ok s3 →
      s.sync r1 b1 p1 rr br pr r2 b2 p2 =
        (match s3.do_sync r2 b2 p2 with
          | .ok s4 => RustResult.ok s4
          | .error e2 => RustResult.err e2)) ∧
    (s.do_set_setpoints heat cool duration r1 b1 = .ok () →
      s.set_setpoints heat cool duration r1 b1 rr br pr r2 b2 =
        RustResult.ok ()) ∧
    (∀ e, s.do_set_setpoints heat cool duration r1 b1 = .error e →
      daikin.is401 e = false →
      s.set_setpoints heat cool duration r1 b1 rr br pr r2 b2 =
        RustResult.err e) ∧
    (∀ e re, s.do_set_setpoints heat cool duration r1 b1 = .error e →
      daikin.is401 e = true →
      s.refresh_token_op rr br pr = RustResult.err re →
      s.set_setpoints heat cool duration r1 b1 rr br pr r2 b2 =
        RustResult.err re) ∧
    (∀ e s3, s.do_set_setpoints heat cool duration r1 b1 = .error e →
      daikin.is401 e = true →
      s.refresh_token_op rr br pr = RustResult.ok s3 →
      s.set_setpoints heat cool duration r1 b1 rr br pr r2 b2 =
        (match s3.do_set_setpoints heat cool duration r2 b2 with
          | .ok _ => RustResult.ok ()
          | .error e2 => RustResult.err e2)) := by
  refine ⟨?_, ?_, ?_, ?_, ?_, ?_, ?_, ?_⟩
  · intro s2 h; simp [daikin.SkyPort.sync, h]
  · intro e h h401; simp [daikin.SkyPort.sync, h, h401]
  · intro e re h h401 hr; simp [daikin.SkyPort.sync, h, h401, hr]
  · intro e s3 h h401 hr; simp [daikin.SkyPort.sync, h, h401, hr]
  · intro h; simp [daikin.SkyPort.set_setpoints, h]
  · intro e h h401; simp [daikin.SkyPort.set_setpoints, h, h401]
  · intro e re h h401 hr; simp [daikin.SkyPort.set_setpoints, h, h401, hr]
  · intro e s3 h h401 hr; simp [daikin.SkyPort.set_setpoints, h, h401, hr]

/-- Witness for C7: a concrete sync whose first attempt fails with 401,
whose refresh succeeds and whose retry succeeds, yielding success with the
new token and snapshot; and a concrete set_setpoints whose first attempt
fails with a non-401 status, which propagates unchanged. -/
theorem C7_witness :
    daikin.SkyPort.sync 401 "expired" none 200 "" (some loginW)
        200 "" (some ddW) skyW =
      RustResult.ok { skyW with access_token := "new-token",
                                device_data := ddW } ∧
    daikin.SkyPort.set_setpoints 21 26 15 500 "boom" 200 "" (some loginW)
        200 "" skyW =
      RustResult.err (.APIError 500 "boom") :=
  ⟨(C7_auth_retry_once skyW 401 200 200 "expired" "" "" none (some ddW)
      (some loginW) 21 26 15).2.2.2.1
      (.APIError 401 "expired") { skyW with access_token := "new-token" }
      rfl rfl rfl,
   (C7_auth_retry_once skyW 500 200 200 "boom" "" "" none none
      (some loginW) 21 26 15).2.2.2.2.2.1
      (.APIError 500 "boom") rfl rfl⟩

/-- Claim C8: when sync and the sensor fetch succeed and the device
reports away (geofencing) or the config is dry-run, the cycle emits
exactly one telemetry record, with `execute_control = false`, performs no
setpoint write (for every possible outcome of the write collaborator — it
is never consulted), and returns the normal 15-minute interval. -/
theorem C8_suppressed_cycle (skyport : daikin.SkyPort) (atemp : ℚ)
    (config : Config) (setRes : RustResult Unit)
    (h : skyport.get_geofencing_away = true ∨ config.dry_run = true) :
    ∃ l : TempLog, l.execute_control = false ∧
      do_control (.ok skyport) (.ok atemp) config setRes =
        RustResult.ok ⟨15, [l], []⟩ := by
  have hex : (!(skyport.get_geofencing_away || config.dry_run)) = false := by
    rcases h with h | h <;> simp [h]
  have key : do_control (.ok skyport) (.ok atemp) config setRes =
      RustResult.ok ⟨15, [{
        target_temp_heat := config.target_temp_heat
        target_temp_cool := config.target_temp_cool
        awair_temp := atemp
        daikin_indoor_temp := skyport.get_temp_indoor
        daikin_outdoor_temp := skyport.get_temp_outdoor
        current_heat_setpoint := skyport.get_heat_setpoint
        current_cool_setpoint := skyport.get_cool_setpoint
        new_heat_setpoint := (calc_new_setpoints atemp skyport.get_temp_indoor
          config.target_temp_heat config.target_temp_cool).1
        new_cool_setpoint := (calc_new_setpoints atemp skyport.get_temp_indoor
          config.target_temp_heat config.target_temp_cool).2
        execute_control := false }], []⟩ := by
    simp [do_control, hex]
  exact ⟨_, rfl, key⟩

/-- Witness for C8: a concrete away-mode cycle. -/
theorem C8_witness :
    ∃ l : TempLog, l.execute_control = false ∧
      do_control (.ok skyAway) (.ok 20) cfgGood (.ok ()) =
        RustResult.ok ⟨15, [l], []⟩ :=
  C8_suppressed_cycle skyAway 20 cfgGood (.ok ()) (Or.inl rfl)

/-- Claim C9: for a 200 sensor response with a parsed payload whose first
(most recent) record has a well-formed timestamp and whose records all
carry a temp component, `Awair::get_temp` returns the distinct stale-data
error (`APIError(1000, "Stale data")`) exactly when the first record's age
exceeds 15 minutes; otherwise it returns the average of the payload's temp
components. -/
theorem C9_stale_iff_average (p : String → Option Int) (now : Int)
    (body : String) (d : awair.Data) (r : awair.Record)
    (rs : List awair.Record) (ts : Int)
    (hd : d.data = r :: rs)
    (hts : p r.timestamp = some ts)
    (htemp : ∀ rec ∈ d.data, ∃ v, awair.get_temp rec.sensors = RustResult.ok v) :
    (awair.Awair.get_temp p now 200 body (some d) =
        RustResult.err (.APIError ERROR_STALE_DATA "Stale data")
      ↔ 15 < awair.num_minutes (now - ts)) ∧
    (awair.num_minutes (now - ts) ≤ 15 →
      ∃ s, awair.sum_temps d.data = RustResult.ok s ∧
        awair.Awair.get_temp p now 200 body (some d) =
          RustResult.ok (s / (d.data.length : ℚ))) := by
  obtain ⟨s, hs⟩ := sum_temps_ok d.data htemp
  have hge : awair.get_latest_timestamp p d = RustResult.ok ts := by
    simp [awair.get_latest_timestamp, hd, hts]
  have hmain : awair.Awair.get_temp p now 200 body (some d) =
      (if awair.num_minutes (now - ts) > 15 then
        RustResult.err (.APIError ERROR_STALE_DATA "Stale data")
      else RustResult.ok (s / (d.data.length : ℚ))) := by
    simp [awair.Awair.get_temp, hge, awair.average_temp, hs]
  constructor
  · by_cases hstale : 15 < awair.num_minutes (now - ts)
    · simp [hmain, hstale]
    · simp [hmain, hstale]
  · intro hn
    have hns : ¬ awair.num_minutes (now - ts) > 15 := by omega
    exact ⟨s, hs, by simp [hmain, hns]⟩

/-- Witness for C9: a fresh payload (age 0 minutes) with one record whose
temp component is 20, averaged to 20. -/
theorem C9_witness :
    ∃ s, awair.sum_temps dW.data = RustResult.ok s ∧
      awair.Awair.get_temp pW 1000 200 "" (some dW) =
        RustResult.ok (s / (dW.data.length : ℚ)) :=
  (C9_stale_iff_average pW 1000 "" dW rW [] 1000 rfl rfl
    (by intro rec hrec
        simp only [dW, rW] at hrec
        simp only [List.mem_singleton] at hrec
        exact ⟨20, by rw [hrec]; decide⟩)).2 (by decide)

/-- Claim C10: a parsed configuration with `target_temp_heat >
target_temp_cool` is rejected by `read_config`, and the startup sequence
then performs no network interaction (it exits with status 1 first);
conversely a parsed configuration with `target_temp_heat ≤
target_temp_cool` passes the check and is returned unchanged. -/
theorem C10_config_rejection (c : Config) (configTest : Bool)
    (awairRes skyRes : Except Error Unit) :
    (c.target_temp_cool < c.target_temp_heat →
      read_config (.ok c) =
        .error "target_temp_heat must be lower than or equal to target_temp_cool" ∧
      (main_startup (.ok c) configTest awairRes skyRes).1 = [] ∧
      (main_startup (.ok c) configTest awairRes skyRes).2 = some 1) ∧
    (c.target_temp_heat ≤ c.target_temp_cool →
      read_config (.ok c) = .ok c) := by
  constructor
  · intro h
    have hgt : c.target_temp_heat > c.target_temp_cool := h
    have hrc : read_config (.ok c) =
        .error "target_temp_heat must be lower than or equal to target_temp_cool" := by
      simp [read_config, if_pos hgt]
    refine ⟨hrc, ?_, ?_⟩ <;> simp [main_startup, hrc]
  · intro h
    have hng : ¬ c.target_temp_heat > c.target_temp_cool := by exact not_lt.mpr h
    simp [read_config, if_neg hng]

/-- Witness for C10 at a rejected and an accepted concrete configuration. -/
theorem C10_witness :
    (read_config (.ok cfgBad) =
        .error "target_temp_heat must be lower than or equal to target_temp_cool" ∧
      (main_startup (.ok cfgBad) false (.ok ()) (.ok ())).1 = [] ∧
      (main_startup (.ok cfgBad) false (.ok ()) (.ok ())).2 = some 1) ∧
    read_config (.ok cfgGood) = .ok cfgGood :=
  ⟨(C10_config_rejection cfgBad false (.ok ()) (.ok ())).1 (by norm_num [cfgBad]),
   (C10_config_rejection cfgGood false (.ok ()) (.ok ())).2 (by norm_num [cfgGood])⟩

end Daikawa
